import Mathlib

/-!
# Verification of the `runqemu` test-environment orchestration helper

A shallow embedding of `src/tox_lsr/test_scripts/runqemu.py`.  Pure string
and path computations are translated directly; filesystem state is passed
explicitly as an association list from paths to file records (content plus
the two extended attributes the script uses as provenance tags); network
responses, compose metadata and HTML index pages are oracle parameters,
since the script only ever consumes them through a fixed small interface.
-/

namespace Runqemu

/-- Python truthiness of an optional string value (`None` and `""` are
falsy, every other string is truthy). -/
def truthy : Option String → Bool
  | none => false
  | some s => s ≠ ""

/-- `s.endswith(suffix)`. -/
def strEndsWith (s suffix : String) : Bool :=
  suffix.toList.isSuffixOf s.toList

/-- `s.startswith(pre)` (used by the embedding of `os.path.join`). -/
def strStartsWith (s pre : String) : Bool :=
  pre.toList.isPrefixOf s.toList

/-- Lexicographic (code-point) string comparison, Python's `<=` on `str`. -/
def strLe (a b : String) : Bool :=
  go a.toList b.toList
where
  go : List Char → List Char → Bool
    | [], _ => true
    | _ :: _, [] => false
    | c :: cs, d :: ds =>
        if c < d then true else if d < c then false else go cs ds

/-- Split a list at each (non-overlapping, leftmost-first) occurrence of a
non-empty separator; fuelled so the definition is structural. -/
def splitOnGo [DecidableEq α] (sep : List α) :
    Nat → List α → List α → List (List α)
  | _, [], acc => [acc.reverse]
  | 0, l, acc => [acc.reverse ++ l]
  | fuel + 1, x :: xs, acc =>
      if sep.isPrefixOf (x :: xs) then
        acc.reverse :: splitOnGo sep fuel ((x :: xs).drop sep.length) []
      else splitOnGo sep fuel xs (x :: acc)

/-- `String.splitOn` (same semantics), over character lists. -/
def splitOnStr (s sep : String) : List String :=
  if sep = "" then [s]
  else (splitOnGo sep.toList s.toList.length s.toList []).map
    (fun cs => ⟨cs⟩)

/-- `os.path.basename`: the text after the last `/` of the path. -/
def basename (p : String) : String :=
  ⟨p.toList.foldl (fun acc c => if c = '/' then [] else acc ++ [c]) []⟩

/-- Index of the last `.` in a character list, if any. -/
def lastDotIdx (cs : List Char) : Option Nat :=
  (cs.reverse.findIdx? (· = '.')).map (fun k => cs.length - 1 - k)

/-- `os.path.splitext` as applied to basenames (the script only ever splits
basenames or the final component of a URL path): the extension starts at the
last dot, except that a name consisting only of leading dots before that dot
has no extension (`".yml"` splits as `(".yml", "")`, as in `posixpath`). -/
def splitext (p : String) : String × String :=
  let cs := p.toList
  match lastDotIdx cs with
  | none => (p, "")
  | some i =>
      if (cs.take i).any (fun c => c ≠ '.') then (⟨cs.take i⟩, ⟨cs.drop i⟩)
      else (p, "")

/-- `os.path.join` for the two-argument uses in the script. -/
def pathJoin (a b : String) : String :=
  if strStartsWith b "/" then b
  else if strEndsWith a "/" ∨ a = "" then a ++ b
  else a ++ "/" ++ b

/-- `urllib.parse.urlparse(url).path`, modelled for hierarchical
`scheme://netloc/path` URLs (and for scheme-less strings, which are all
path): the fragment and query are stripped, then everything through the
network-location component is dropped. -/
def urlPath (url : String) : String :=
  let noFrag := (splitOnStr url "#").headD ""
  let noQuery := (splitOnStr noFrag "?").headD ""
  match splitOnStr noQuery "://" with
  | [_, rest] => ⟨rest.toList.dropWhile (fun c => c ≠ '/')⟩
  | _ => noQuery

/-- Substring test, `s.find(sub) > -1` in Python. -/
def strContains (s sub : String) : Bool :=
  go s.toList sub.toList
where
  go : List Char → List Char → Bool
    | l, sub =>
      if sub.isPrefixOf l then true
      else match l with
        | [] => false
        | _ :: rest => go rest sub

/-! ## Image cache (`fetch_image`) -/

/-- A cached file: its byte content together with the two extended
attributes used as provenance tags (`user.xdg.origin.url` and
`user.dublincore.date`); `none` models an absent attribute (ENODATA). -/
structure XFile where
  urlTag : Option String
  dateTag : Option String
  content : String
  deriving DecidableEq, Repr

/-- The cache directory's state: an association list from paths to files.
Later entries are shadowed by earlier ones; `fsLookup` takes the first
match, insertion prepends, deletion removes every entry for the path. -/
abbrev FS := List (String × XFile)

def fsLookup : FS → String → Option XFile
  | [], _ => none
  | (q, f) :: rest, p => if q = p then some f else fsLookup rest p

/-- `os.path.exists`. -/
def fsExists (fs : FS) (p : String) : Bool :=
  (fsLookup fs p).isSome

/-- Creating or overwriting the file at `p`. -/
def fsInsert (fs : FS) (p : String) (f : XFile) : FS :=
  (p, f) :: fs

/-- `os.unlink` (also used for `os.rename`'s removal of the source name). -/
def fsErase (fs : FS) (p : String) : FS :=
  fs.filter (fun e => e.1 ≠ p)

/-- `get_metadata_from_file(path, URL_XATTR)` via `origurl`: the stored
origin-URL tag.  (In the source a missing *file* would raise; every call
site guards on existence first, so the embedding simply yields `none`.) -/
def origurl (fs : FS) (path : String) : Option String :=
  (fsLookup fs path).bind (·.urlTag)

/-- `image_source_last_modified_by_file_metadata`: the stored last-modified
tag when the file exists (possibly `none` for ENODATA), and the Python
string `""` when the file does not exist. -/
def image_source_last_modified_by_file_metadata (fs : FS) (path : String) :
    Option String :=
  if fsExists fs path then (fsLookup fs path).bind (·.dateTag)
  else some ""

/-- The network, as the script sees it for one URL: the origin's current
`Last-Modified` header (`none` when the header is absent) and the outcome
of fetching the body. -/
structure NetState where
  lastModified : Option String
  body : Except Unit String

/-- The refetch condition of `fetch_image` (the `if` at the heart of the
cache): the target is missing, or its origin-URL tag differs from `url`,
or its stored last-modified tag differs from the origin's current value. -/
def need_fetch (net : NetState) (fs : FS) (url path : String) : Bool :=
  !fsExists fs path || origurl fs path != some url
    || net.lastModified != image_source_last_modified_by_file_metadata fs path

structure FetchResult where
  result : Option String
  fs : FS
  /-- whether a body transfer was attempted (observation flag; `false`
  means the cached file was reused without re-fetching). -/
  fetched : Bool
  /-- whether an uncaught exception escaped the call: the `TypeError` that
  `os.fsencode(None)` raises when the origin supplied no `Last-Modified`
  header (the `setxattr` calls sit outside the `try`/`except`). -/
  raised : Bool
  deriving DecidableEq, Repr

/-- `fetch_image(url, cache, label)`.  `tmpName` stands for the fresh name
`tempfile.NamedTemporaryFile(dir=cache)` generates inside the cache
directory.  On a needed fetch the body is written to the temporary file,
both provenance attributes are set on it, and it is renamed over the
target; when the origin's `Last-Modified` header is present, the body
write and the two `setxattr` calls are modelled as one record update,
since all three are in place before the rename.  When the header is
absent, `os.fsencode(None)` in the second `setxattr` raises an uncaught
`TypeError` (the `setxattr` calls are outside the `try`): the temporary
file is left behind carrying the body and only the origin-URL tag, the
rename never happens, and no path is returned.  On a body failure the
partial temporary file is unlinked and no path is returned. -/
def fetch_image (net : NetState) (fs : FS) (tmpName : String)
    (url cache label : String) : FetchResult :=
  let original_name := basename (urlPath url)
  let suffix := (splitext original_name).2
  let image_name := label ++ suffix
  let path := pathJoin cache image_name
  if need_fetch net fs url path then
    -- NamedTemporaryFile creates the (empty, untagged) temporary file
    let fs1 := fsInsert fs tmpName ⟨none, none, ""⟩
    match net.body with
    | .error _ =>
        { result := none, fs := fsErase fs1 tmpName, fetched := true,
          raised := false }
    | .ok data =>
        match net.lastModified with
        | some lm =>
            let fdata : XFile :=
              { urlTag := some url, dateTag := some lm, content := data }
            let fs2 := fsInsert fs1 tmpName fdata
            -- os.rename(tempfile, path)
            { result := some path
              fs := fsInsert (fsErase fs2 tmpName) path fdata
              fetched := true
              raised := false }
        | none =>
            -- copyfileobj and the URL setxattr have succeeded; then
            -- os.fsencode(None) raises TypeError, uncaught: temp file
            -- left, no rename, nothing returned
            { result := none
              fs := fsInsert fs1 tmpName ⟨some url, none, data⟩
              fetched := true
              raised := true }
  else
    { result := some path, fs := fs, fetched := false, raised := false }

/-! ## Image locator: compose resolution (`composeurl2images`) -/

/-- One image record of the compose metadata, with the fields the script
reads (`image.type`, `image.subvariant`, `image.path`). -/
structure ComposeImage where
  type : String
  subvariant : String
  path : String
  deriving DecidableEq, Repr

/-- The compose metadata the script walks
(`compose.images.images`): variant → architecture → image records. -/
abbrev ComposeData := List (String × List (String × List ComposeImage))

/-- A candidate, the tuple `(image, variant, image.subvariant)` the script
puts into its `candidates` set. -/
abbrev Cand := ComposeImage × String × String

/-- Adding an element to a Python `set`, modelled as a duplicate-free list.
Python's set iteration order is unspecified; the model fixes insertion
order, which the script's uses (size tests, filtering, mapping) never
observe beyond membership and multiplicity. -/
def setInsert [DecidableEq α] (x : α) (s : List α) : List α :=
  if x ∈ s then s else s ++ [x]

/-- The initial `candidates` set: every image of the desired architecture
whose type is `"qcow2"`, as `(image, variant, image.subvariant)`. -/
def composeCandidates (cd : ComposeData) (desiredarch : String) : List Cand :=
  cd.foldl
    (fun acc vp =>
      vp.2.foldl
        (fun acc2 ap =>
          if ap.1 = desiredarch then
            ap.2.foldl
              (fun acc3 img =>
                if img.type = "qcow2" then
                  setInsert (img, vp.1, img.subvariant) acc3
                else acc3)
              acc2
          else acc2)
        acc)
    []

/-- One narrowing step of `composeurl2images`: when more than one candidate
remains and a (truthy) hint is supplied, keep the candidates whose `proj`
field equals the hint — but only if that matches at least one candidate;
a hint matching nothing leaves the set unchanged. -/
def narrowBy (proj : Cand → String) (cands : List Cand)
    (hint : Option String) : List Cand :=
  if 1 < cands.length ∧ truthy hint then
    if 0 < (cands.filter (fun c => proj c = hint.getD "")).length then
      cands.filter (fun c => proj c = hint.getD "")
    else cands
  else cands

/-- The candidate set after both narrowing steps (first by variant, then —
on the possibly narrowed set — by subvariant). -/
def composeFinalCands (cd : ComposeData) (desiredarch : String)
    (desiredvariant desiredsubvariant : Option String) : List Cand :=
  narrowBy (fun c => c.2.2)
    (narrowBy (fun c => c.2.1) (composeCandidates cd desiredarch)
      desiredvariant)
    desiredsubvariant

/-- `composeurl2images(composeurl, desiredarch, desiredvariant,
desiredsubvariant)`.  The compose metadata fetched from the URL is the
oracle parameter `cd`.  Returns the full URL of each remaining candidate. -/
def composeurl2images (composeurl : String) (cd : ComposeData)
    (desiredarch : String) (desiredvariant desiredsubvariant : Option String) :
    List String :=
  let composepath :=
    if strEndsWith composeurl "/" then composeurl else composeurl ++ "/"
  (composeFinalCands cd desiredarch desiredvariant desiredsubvariant).map
    (fun c => composepath ++ c.1.path)

/-! ## Image locator: CentOS Stream HTML index (`centoshtml2image`) -/

/-- The pattern string of `centoshtml2image` (a raw Python string; `\(` and
`\)` are regex escapes for literal parentheses). -/
def centoshtmlPat : String :=
  "CentOS-Stream-GenericCloud-%s-\\([1-9][0-9]+[.][0-9]+\\)[.]%s[.]qcow2"

/-- Python `str.format` with positional auto-numbered fields: successive
occurrences of the replacement field `"\x7b\x7d"` are replaced by the
arguments in order; surplus arguments are ignored. -/
def pyFormat (template : String) (args : List String) : String :=
  go (splitOnStr template "\x7b\x7d") args
where
  go : List String → List String → String
    | [], _ => ""
    | [p], _ => p
    | p :: ps, a :: rest => p ++ a ++ go ps rest
    | p :: ps, [] => p ++ go ps []

/-- The pattern actually compiled: `pat.format(centosver, desiredarch)`.
The template contains `%s` placeholders but no `str.format` replacement
fields, so formatting substitutes nothing. -/
def compiledNamePat (centosver : Nat) (desiredarch : String) : String :=
  pyFormat centoshtmlPat [toString centosver, desiredarch]

/-- Consume an exact literal. -/
def chompLit : List Char → List Char → Option (List Char)
  | [], s => some s
  | _ :: _, [] => none
  | c :: cs, d :: ds => if c = d then chompLit cs ds else none

/-- Consume exactly one character of a class. -/
def chompClass1 (p : Char → Bool) : List Char → Option (List Char)
  | [] => none
  | c :: rest => if p c then some rest else none

/-- Consume one-or-more characters of a class, greedily.  (For this
pattern greediness is exact: each `+`-class is followed by a character
outside the class.) -/
def chompPlus (p : Char → Bool) : List Char → Option (List Char)
  | [] => none
  | c :: rest => if p c then some (rest.dropWhile p) else none

/-- `re.match` of the compiled pattern against `s`, returning the list of
capture groups on success.  After `.format` the regex is the literal
pattern text: `%s` is matched literally, and `\(`/`\)` are escaped (i.e.
literal) parentheses, so the regex has *no* capturing groups — a successful
match yields the empty group list.  `re.match` anchors at the start only,
so a match of a prefix succeeds. -/
def namematchMatch (s : String) : Option (List String) := do
  let r1 ← chompLit "CentOS-Stream-GenericCloud-%s-(".toList s.toList
  let r2 ← chompClass1 (fun c => '1' ≤ c ∧ c ≤ '9') r1
  let r3 ← chompPlus (fun c => '0' ≤ c ∧ c ≤ '9') r2
  let r4 ← chompLit ['.'] r3
  let r5 ← chompPlus (fun c => '0' ≤ c ∧ c ≤ '9') r4
  let _ ← chompLit ").%s.qcow2".toList r5
  pure []

/-- `getdatekey`: the first capture group of a match with at least one
group, else `""`.  Because the compiled pattern has no capturing groups,
this is `""` for every name (proved below). -/
def getdatekey (imagename : String) : String :=
  match namematchMatch imagename with
  | some groups => if 0 < groups.length then groups.headD "" else ""
  | none => ""

/-- Python's `sorted(l, key=key)`: a stable ascending sort by key,
modelled as stable insertion (extensionally equal to any stable sort). -/
def insertRight (key : α → String) (x : α) : List α → List α
  | [] => [x]
  | y :: ys => if strLe (key y) (key x) then y :: insertRight key x ys
               else x :: y :: ys

def sortedPy (key : α → String) (l : List α) : List α :=
  l.foldl (fun acc x => insertRight key x acc) []

/-- `centoshtml2image(url, desiredarch)`.  The hyperlink targets of the
index page's `indexcolname` cells are the oracle parameter `links`.
`.error ()` models the uncaught `IndexError` that `sorted(...)[-1]` raises
on an empty list; `.ok ""` is the explicit empty return of the
unrecognized-version branch.  The sort key `getdatekey` is independent of
`centosver` and `desiredarch` because `compiledNamePat` never substitutes
them into the pattern. -/
def centoshtml2image (url desiredarch : String) (links : List String) :
    Except Unit String :=
  let path := if strEndsWith url "/" then url else url ++ "/"
  let centosver : Option Nat :=
    if strContains path "/centos/9-stream/" then some 9
    else if strContains path "/centos/8-stream/" then some 8
    else none
  match centosver with
  | none => .ok ""
  | some _ =>
      let imagelist := links.filter (fun l => strEndsWith l ".qcow2")
      match (sortedPy getdatekey imagelist).getLast? with
      | none => .error ()
      | some candidate => .ok (path ++ candidate)

/-! ## Image descriptors and URL resolution (`get_url`, `download_image`) -/

/-- An image descriptor from the JSON config: the keys the script reads.
`setup` is either a raw command string or a list of pre-built play
documents (kept abstract as strings, since the script only copies them). -/
structure Image where
  name : String
  source : Option String := none
  compose : Option String := none
  centoshtml : Option String := none
  variant : Option String := none
  subvariant : Option String := none
  setup : Option (String ⊕ List String) := none
  file : Option String := none
  deriving DecidableEq, Repr

/-- The distinguishable fatal-error signals of the orchestration layer. -/
inductive RunError
  | badInventoryName (path : String)
  | couldNotDetermineUrl (name : String)
  | couldNotDownload (name : String)
  | indexError
  | uncaughtTypeError
  | runnerFailed
  deriving DecidableEq, Repr

/-- `get_url(image)`: direct source URL if truthy; else compose resolution
(note: only the variant hint is passed — `composeurl2images` is called
with its `desiredsubvariant` parameter left at its default `None`); else
the CentOS HTML index; else `None` (after logging).  `.ok none` is
Python's `None` return; the `Except` layer propagates the uncaught
`IndexError` that `centoshtml2image` can raise. -/
def get_url (image : Image) (cd : ComposeData) (links : List String) :
    Except Unit (Option String) :=
  if truthy image.source then .ok image.source
  else if truthy image.compose then
    let variant := image.variant
    let image_urls :=
      composeurl2images (image.compose.getD "") cd "x86_64" variant none
    match image_urls with
    | [u] => .ok (some u)
    | _ => .ok none
  else if truthy image.centoshtml then
    (centoshtml2image (image.centoshtml.getD "") "x86_64" links).map
      (fun s => some s)
  else .ok none

/-- `download_image(image, cache)`.  The `Bool` is an observation flag:
whether `fetch_image` was invoked at all.  `"file" not in image` is a key
*presence* test, not a truthiness test.  A falsy resolved URL (Python
`None` or `""`) raises before any download is attempted; a failed fetch
raises afterwards; an uncaught exception escaping `fetch_image` (the
missing-header `TypeError`) propagates through `download_image` as well. -/
def download_image (image : Image) (cache : String) (cd : ComposeData)
    (links : List String) (net : NetState) (fs : FS) (tmpName : String) :
    Except RunError (Image × FS) × Bool :=
  if image.file.isSome then (.ok (image, fs), false)
  else
    match get_url image cd links with
    | .error _ => (.error .indexError, false)
    | .ok image_url =>
        if truthy image_url then
          let r := fetch_image net fs tmpName (image_url.getD "") cache
            image.name
          if r.raised then (.error .uncaughtTypeError, true)
          else
            match r.result with
            | none => (.error (.couldNotDownload image.name), true)
            | some p => (.ok ({ image with file := some p }, r.fs), true)
        else (.error (.couldNotDetermineUrl image.name), false)

/-! ## Guest conditioning script builder (`make_setup_yml`) -/

/-- The task records `make_setup_yml` can place into
`setup_play["tasks"]`, one constructor per concrete dictionary built in
the source (task payloads are fixed there; only the raw setup command is
caller-supplied). -/
inductive Task
  | rawCmd (cmd : String)
  | getCloudInitReqs
  | removeCloudInitPkg
  | getCloudInitDeps
  | removeCloudInitOnlyDeps
  | createEpelRepo
  | createYumCache
  | createDnfCache
  | disableEpel7
  | disableEpel8
  deriving DecidableEq, Repr

/-- A play document of a conditioning script: a caller-supplied pre-built
play (copied verbatim), the synthesized "Set up host for test playbooks"
play, or the fixed post-setup play (sync, then backgrounded shutdown). -/
inductive PlayDoc
  | user (doc : String)
  | setupHost (gather_facts : Bool) (tasks : List Task)
  | postSetup
  deriving DecidableEq, Repr

/-- The four-step cloud-init removal sequence. -/
def cloudInitTasks : List Task :=
  [.getCloudInitReqs, .removeCloudInitPkg, .getCloudInitDeps,
   .removeCloudInitOnlyDeps]

/-- The EPEL/package-cache warming sequence appended when a snapshot or a
yum cache is requested. -/
def yumCacheTasks : List Task :=
  [.createEpelRepo, .createYumCache, .createDnfCache, .disableEpel7,
   .disableEpel8]

/-- The contents of `setup_play["tasks"]` after all appends, in source
order: raw caller task, cloud-init removal, cache warming. -/
def setup_play_tasks (image : Image)
    (remove_cloud_init use_snapshot use_yum_cache : Bool) : List Task :=
  (match image.setup with
   | some (.inl raw) => [.rawCmd raw]
   | _ => [])
  ++ (if remove_cloud_init then cloudInitTasks else [])
  ++ (if use_snapshot || use_yum_cache then yumCacheTasks else [])

/-- The cache directory's conditioning-script files: path → serialized
play list. -/
abbrev YFS := List (String × List PlayDoc)

def yLookup : YFS → String → Option (List PlayDoc)
  | [], _ => none
  | (q, d) :: rest, p => if q = p then some d else yLookup rest p

/-- `open(path, "w")` followed by `yaml.safe_dump`. -/
def yWrite (yfs : YFS) (p : String) (docs : List PlayDoc) : YFS :=
  (p, docs) :: yfs.filter (fun e => e.1 ≠ p)

/-- `if os.path.exists(path): os.unlink(path)`. -/
def yErase (yfs : YFS) (p : String) : YFS :=
  yfs.filter (fun e => e.1 ≠ p)

/-- `make_setup_yml(image, cache, remove_cloud_init, use_snapshot,
use_yum_cache)`: builds the pre-setup and post-setup documents and
serializes or deletes their files.  Mirrors the source exactly — in
particular, the pre-setup file is written only under `if setup_plays:`
(structured caller-supplied plays present), with the
`setup_plays.append(setup_play)` step nested *inside* that guard. -/
def make_setup_yml (image : Image) (cache : String) (yfs : YFS)
    (remove_cloud_init use_snapshot use_yum_cache : Bool) :
    (Option String × Option String) × YFS :=
  let pre_setup_yml := pathJoin cache (image.name ++ "_setup.yml")
  let post_setup_yml := pathJoin cache (image.name ++ "_post_setup.yml")
  let gather_facts := use_snapshot || use_yum_cache
  let tasks := setup_play_tasks image remove_cloud_init use_snapshot
    use_yum_cache
  let setup_plays : List PlayDoc :=
    match image.setup with
    | some (.inr plays) => plays.map .user
    | _ => []
  let post_setup_plays : List PlayDoc :=
    if use_snapshot || use_yum_cache then
      if use_snapshot then [.postSetup] else []
    else []
  let (pre, yfs1) :=
    if setup_plays ≠ [] then
      let setup_plays' :=
        if tasks ≠ [] then setup_plays ++ [.setupHost gather_facts tasks]
        else setup_plays
      (some pre_setup_yml, yWrite yfs pre_setup_yml setup_plays')
    else (none, yErase yfs pre_setup_yml)
  let (post, yfs2) :=
    if post_setup_plays ≠ [] then
      (some post_setup_yml, yWrite yfs1 post_setup_yml post_setup_plays)
    else (none, yErase yfs1 post_setup_yml)
  ((pre, post), yfs2)

/-! ## External playbook runner (`internal_run_ansible_playbooks`) -/

/-- What the external `ansible-playbook` invocation does, as far as the
orchestrator's own state is concerned: whether it exits non-zero, and
whether the guest-integration layer created (and left behind) the
`LOCK_ON_FILE` exit-detection indicator.  Other guest-side writes (e.g.
into the snapshot's content) never create or remove the orchestrator's
own files, so they do not appear in the path-set state. -/
structure RunnerBehavior where
  fails : Bool
  leavesLock : Bool
  deriving DecidableEq, Repr

/-- The host filesystem as a set of existing paths (content is irrelevant
to the runner/snapshot claims). -/
abbrev PathSet := List String

def pinsert (p : String) (fs : PathSet) : PathSet :=
  if p ∈ fs then fs else p :: fs

def premove (p : String) (fs : PathSet) : PathSet :=
  fs.filter (fun q => q ≠ p)

/-- `internal_run_ansible_playbooks(...)` with the filesystem explicit.
`lock` is the fresh name `tempfile.NamedTemporaryFile().name` generates
when `wait_on_qemu` is set.  On a runner failure with wait requested the
lock file is unlinked (when it exists) before the error is re-raised; on
success with wait requested the pid is read from the lock file, the file
is unlinked, and the process is polled until gone (time only, no
filesystem effect). -/
def internal_run_ansible_playbooks (fs : PathSet) (lock : String)
    (wait_on_qemu : Bool) (rb : RunnerBehavior) :
    Except RunError Unit × PathSet :=
  let fs1 := if wait_on_qemu && rb.leavesLock then pinsert lock fs else fs
  if rb.fails then
    let fs2 := if wait_on_qemu && decide (lock ∈ fs1) then premove lock fs1
               else fs1
    (.error .runnerFailed, fs2)
  else
    if wait_on_qemu && decide (lock ∈ fs1) then (.ok (), premove lock fs1)
    else (.ok (), fs1)

/-! ## Snapshot manager (`refresh_snapshot`) -/

/-- The `os.stat` creation times and current clock `refresh_snapshot`
compares (`time.time()` is a float; ℚ models it exactly). -/
structure SnapTimes where
  now : ℚ
  snapCtime : ℚ
  imageCtime : ℚ

/-- The staleness decision of `refresh_snapshot` (its `need_refresh`
flag): refresh when the snapshot file does not exist, or the snapshot is
more than 86400 seconds old, or it is older than the backing image. -/
def need_refresh (fs : PathSet) (snapfile : String) (t : SnapTimes) : Bool :=
  if ¬ snapfile ∈ fs then true
  else if t.now - t.snapCtime > 86400 then true
  else if t.snapCtime < t.imageCtime then true
  else false

/-- The observable actions of `refresh_snapshot`, in order. -/
inductive SnapEffect
  | qemuImgCreate
  | runSetupPlaybooks
  | hostSync
  | settleSleep
  deriving DecidableEq, Repr

/-- `refresh_snapshot(image_file, snapfile, ...)`: no-op when the snapshot
is fresh; otherwise create the copy-on-write snapshot with `qemu-img`,
run the conditioning playbooks through the external runner with
`wait_on_qemu=True` (mandatory at this call site), and on success sync the
host and sleep the settle delay.  A runner failure propagates (the
snapshot file is not removed). -/
def refresh_snapshot (fs : PathSet) (image_file snapfile lock : String)
    (t : SnapTimes) (rb : RunnerBehavior) :
    List SnapEffect × (Except RunError Unit × PathSet) :=
  if need_refresh fs snapfile t then
    let fs1 := pinsert snapfile fs
    match internal_run_ansible_playbooks fs1 lock true rb with
    | (.error e, fs2) =>
        ([.qemuImgCreate, .runSetupPlaybooks], (.error e, fs2))
    | (.ok _, fs2) =>
        ([.qemuImgCreate, .runSetupPlaybooks, .hostSync, .settleSleep],
         (.ok (), fs2))
  else ([], (.ok (), fs))

/-! ## Run orchestrator (`runqemu`) -/

/-- The orchestrator's side-effecting phases, in source order.  The phases
after the image download are modelled as opaque effects: only their
presence and order matter to the claims. -/
inductive Effect
  | download
  | makeSetup
  | installReqs
  | fetchInventory
  | setupCallbacks
  | runPlaybooks
  deriving DecidableEq, Repr

/-- The body of `runqemu` after the inventory-name validation: download
the image (aborting on failure), build the conditioning scripts, then the
remaining phases. -/
def runqemuBody (image : Image) (cache : String)
    (remove_cloud_init use_snapshot use_yum_cache : Bool) (cd : ComposeData)
    (links : List String) (net : NetState) (fs : FS) (yfs : YFS)
    (tmpName : String) : List Effect × Except RunError Unit :=
  match download_image image cache cd links net fs tmpName with
  | ((.error e), _) => ([.download], .error e)
  | ((.ok (image', _)), _) =>
      let _scripts := make_setup_yml image' cache yfs remove_cloud_init
        use_snapshot use_yum_cache
      ([.download, .makeSetup, .installReqs, .fetchInventory,
        .setupCallbacks, .runPlaybooks], .ok ())

/-- `runqemu(image, cache, inventory, ..., write_inventory, ...)`: when a
`write_inventory` path is given (truthy), its basename must be exactly
`"inventory"` or have extension `".yml"`; otherwise an exception is
raised before any other phase runs. -/
def runqemu (image : Image) (cache : String)
    (write_inventory : Option String)
    (remove_cloud_init use_snapshot use_yum_cache : Bool) (cd : ComposeData)
    (links : List String) (net : NetState) (fs : FS) (yfs : YFS)
    (tmpName : String) : List Effect × Except RunError Unit :=
  if truthy write_inventory then
    let wi := write_inventory.getD ""
    let bn := basename wi
    if bn ≠ "inventory" ∧ (splitext bn).2 ≠ ".yml" then
      ([], .error (.badInventoryName wi))
    else
      runqemuBody image cache remove_cloud_init use_snapshot use_yum_cache
        cd links net fs yfs tmpName
  else
    runqemuBody image cache remove_cloud_init use_snapshot use_yum_cache
      cd links net fs yfs tmpName

end Runqemu

deriving instance DecidableEq for Except

namespace Runqemu

/-! ## Helper lemmas -/

theorem fsErase_eq_of_lookup_none (fs : FS) (p : String)
    (h : fsLookup fs p = none) : fsErase fs p = fs := by
  induction fs with
  | nil => rfl
  | cons e rest ih =>
      obtain ⟨q, f⟩ := e
      by_cases he : q = p
      · simp [fsLookup, he] at h
      · simp only [fsLookup, if_neg he] at h
        simp [fsErase, he, List.filter] at ih ⊢
        exact ih h

theorem need_fetch_eq_false (net : NetState) (fs : FS) (url path : String) :
    need_fetch net fs url path = false ↔
      fsExists fs path = true ∧ origurl fs path = some url ∧
        image_source_last_modified_by_file_metadata fs path =
          net.lastModified := by
  simp only [need_fetch, Bool.or_eq_false_iff, Bool.not_eq_false',
    bne_eq_false_iff_eq]
  constructor
  · rintro ⟨⟨h1, h2⟩, h3⟩; exact ⟨h1, h2, h3.symm⟩
  · rintro ⟨h1, h2, h3⟩; exact ⟨⟨h1, h2⟩, h3.symm⟩

theorem mem_pinsert_self (p : String) (fs : PathSet) : p ∈ pinsert p fs := by
  by_cases h : p ∈ fs <;> simp [pinsert, h]

theorem mem_pinsert_of_mem {q : String} (p : String) {fs : PathSet}
    (h : q ∈ fs) : q ∈ pinsert p fs := by
  by_cases hp : p ∈ fs <;> simp [pinsert, hp, h]

theorem not_mem_premove_self (p : String) (fs : PathSet) :
    p ∉ premove p fs := by
  simp [premove, List.mem_filter]

theorem mem_premove {q p : String} {fs : PathSet} (h : q ∈ fs)
    (hne : q ≠ p) : q ∈ premove p fs := by
  simp [premove, List.mem_filter, h, hne]

theorem internal_run_fail_parts (fs : PathSet) (lock : String)
    (rb : RunnerBehavior) (hfail : rb.fails = true) :
    (internal_run_ansible_playbooks fs lock true rb).1 =
        .error .runnerFailed
    ∧ lock ∉ (internal_run_ansible_playbooks fs lock true rb).2
    ∧ ∀ q, q ∈ fs → q ≠ lock →
        q ∈ (internal_run_ansible_playbooks fs lock true rb).2 := by
  obtain ⟨f, l⟩ := rb
  simp only at hfail
  subst hfail
  refine ⟨?_, ?_, ?_⟩
  · cases l <;> simp [internal_run_ansible_playbooks]
  · cases l with
    | false =>
        by_cases hm : lock ∈ fs
        · simpa [internal_run_ansible_playbooks, hm] using
            not_mem_premove_self lock fs
        · simp [internal_run_ansible_playbooks, hm]
    | true =>
        have hm : lock ∈ pinsert lock fs := mem_pinsert_self lock fs
        simpa [internal_run_ansible_playbooks, hm] using
          not_mem_premove_self lock (pinsert lock fs)
  · intro q hq hne
    cases l with
    | false =>
        by_cases hm : lock ∈ fs
        · simpa [internal_run_ansible_playbooks, hm] using mem_premove hq hne
        · simpa [internal_run_ansible_playbooks, hm] using hq
    | true =>
        have hm : lock ∈ pinsert lock fs := mem_pinsert_self lock fs
        simpa [internal_run_ansible_playbooks, hm] using
          mem_premove (mem_pinsert_of_mem lock hq) hne

/-! ## Claim theorems -/

/-- C10: on an HTML index page whose links include no `.qcow2` entries,
`centoshtml2image` evaluates `sorted(imagelist)[-1]` on an empty list and
raises an unhandled `IndexError` (modelled as `.error ()`) instead of
returning an empty result or a logged resolution failure. -/
theorem centoshtml2image_empty_imagelist_index_error :
    centoshtml2image "https://cloud.centos.org/centos/9-stream/x86_64/images/"
      "x86_64" ["parent-directory/", "image.iso"] = .error () := by
  decide

/-- C6 (code-bug evidence): `pat.format(...)` substitutes nothing because
the template has `%s` placeholders but no `str.format` replacement fields,
and the compiled pattern's parentheses are escaped, so it has no capturing
groups; hence `getdatekey` is `""` on every real image name and the
"selection" degenerates to the last `.qcow2` link in page order.  With the
newest image listed first, `centoshtml2image` returns the *older* image,
not the one with the lexicographically greatest version-date token. -/
theorem centoshtml2image_returns_last_link_not_greatest_date :
    compiledNamePat 9 "x86_64" = centoshtmlPat
    ∧ getdatekey "CentOS-Stream-GenericCloud-9-20230202.0.x86_64.qcow2" = ""
    ∧ centoshtml2image
        "https://cloud.centos.org/centos/9-stream/x86_64/images" "x86_64"
        ["CentOS-Stream-GenericCloud-9-20230202.0.x86_64.qcow2",
         "CentOS-Stream-GenericCloud-9-20230101.0.x86_64.qcow2"]
      = .ok ("https://cloud.centos.org/centos/9-stream/x86_64/images/" ++
          "CentOS-Stream-GenericCloud-9-20230101.0.x86_64.qcow2") := by
  decide

/-- C1 (code-bug evidence): with `remove_cloud_init=True` and no
caller-supplied setup, the pre-setup task list is non-empty (the four
cloud-init removal tasks), yet `make_setup_yml` takes the `else` branch of
`if setup_plays:` — deleting the stale pre-setup file and returning `None`
for it — because the constructed `setup_play` is appended to `setup_plays`
only *inside* that guard, which tests the (empty) structured-setup list. -/
theorem make_setup_yml_drops_nonempty_pre_setup :
    setup_play_tasks { name := "f34" } true false false = cloudInitTasks
    ∧ cloudInitTasks ≠ []
    ∧ (make_setup_yml { name := "f34" } "cache"
        [("cache/f34_setup.yml", [.setupHost false []])]
        true false false).1.1 = none
    ∧ yLookup (make_setup_yml { name := "f34" } "cache"
        [("cache/f34_setup.yml", [.setupHost false []])]
        true false false).2 "cache/f34_setup.yml" = none := by
  decide

/-- C5 (counterexample): a compose descriptor whose subvariant hint would
disambiguate — more than one candidate remains after (vacuous) variant
narrowing, and the hint matches exactly one candidate, so under the
claimed rule resolution would narrow to it and return its URL — but
`get_url` never forwards the descriptor's subvariant to
`composeurl2images`, so resolution finds two candidates and yields no
usable URL. -/
theorem get_url_ignores_descriptor_subvariant :
    (composeFinalCands
        [("AppStream",
          [("x86_64",
            [⟨"qcow2", "S1", "images/p1.qcow2"⟩,
             ⟨"qcow2", "S2", "images/p2.qcow2"⟩])])]
        "x86_64" none none).length = 2
    ∧ (narrowBy (fun c => c.2.2)
        (composeCandidates
          [("AppStream",
            [("x86_64",
              [⟨"qcow2", "S1", "images/p1.qcow2"⟩,
               ⟨"qcow2", "S2", "images/p2.qcow2"⟩])])]
          "x86_64")
        (some "S1")).length = 1
    ∧ get_url
        { name := "c9s", compose := some "http://c",
          subvariant := some "S1" }
        [("AppStream",
          [("x86_64",
            [⟨"qcow2", "S1", "images/p1.qcow2"⟩,
             ⟨"qcow2", "S2", "images/p2.qcow2"⟩])])]
        [] = .ok none := by
  decide

/-- C5 (amended): the narrowing rule of `composeurl2images` — restated for
the hints the function actually receives as arguments.  With more than one
candidate and a truthy hint, the set is narrowed to the candidates whose
projected field matches the hint exactly when at least one matches; a hint
matching zero candidates, or an initial set of at most one candidate,
leaves the set unchanged.  The rule applies first for the variant and then,
on the possibly-narrowed set, for the subvariant argument (which `get_url`
always leaves at `None`, see the counterexample above). -/
theorem composeFinalCands_narrowing (cd : ComposeData) (arch : String)
    (v sv : Option String) :
    composeFinalCands cd arch v sv =
      narrowBy (fun c => c.2.2)
        (narrowBy (fun c => c.2.1) (composeCandidates cd arch) v) sv
    ∧ ∀ (proj : Cand → String) (cands : List Cand) (s : String),
        (cands.filter (fun c => proj c = s) = [] →
          narrowBy proj cands (some s) = cands)
        ∧ (1 < cands.length → s ≠ "" →
            cands.filter (fun c => proj c = s) ≠ [] →
            narrowBy proj cands (some s) =
              cands.filter (fun c => proj c = s))
        ∧ (¬ 1 < cands.length → narrowBy proj cands (some s) = cands) := by
  refine ⟨rfl, ?_⟩
  intro proj cands s
  refine ⟨?_, ?_, ?_⟩
  · intro hempty
    unfold narrowBy
    simp only [Option.getD_some]
    split_ifs with h1 h2
    · rw [hempty] at h2; simp at h2
    · rfl
    · rfl
  · intro hlen hs hne
    unfold narrowBy
    simp only [Option.getD_some]
    rw [if_pos ⟨hlen, by simp [truthy, hs]⟩,
      if_pos (List.length_pos.mpr hne)]
  · intro hlen
    unfold narrowBy
    rw [if_neg (fun h => hlen h.1)]

/-- Witness for the C5 amended theorem: on two candidates from distinct
variants, the matching hint narrows to the matching candidate and a hint
matching nothing leaves the set unchanged. -/
theorem composeFinalCands_narrowing_witness :
    narrowBy (fun c => c.2.1)
        [(⟨"qcow2", "S1", "p1"⟩, "V1", "S1"),
         (⟨"qcow2", "S2", "p2"⟩, "V2", "S2")] (some "V1") =
      [(⟨"qcow2", "S1", "p1"⟩, "V1", "S1")]
    ∧ narrowBy (fun c => c.2.1)
        [(⟨"qcow2", "S1", "p1"⟩, "V1", "S1"),
         (⟨"qcow2", "S2", "p2"⟩, "V2", "S2")] (some "NOPE") =
      [(⟨"qcow2", "S1", "p1"⟩, "V1", "S1"),
       (⟨"qcow2", "S2", "p2"⟩, "V2", "S2")] := by
  constructor
  · exact (((composeFinalCands_narrowing [] "x86_64" none none).2
      (fun c => c.2.1)
      [(⟨"qcow2", "S1", "p1"⟩, "V1", "S1"),
       (⟨"qcow2", "S2", "p2"⟩, "V2", "S2")] "V1").2.1
      (by decide) (by decide) (by decide)).trans (by decide)
  · exact ((composeFinalCands_narrowing [] "x86_64" none none).2
      (fun c => c.2.1)
      [(⟨"qcow2", "S1", "p1"⟩, "V1", "S1"),
       (⟨"qcow2", "S2", "p2"⟩, "V2", "S2")] "NOPE").1 (by decide)

/-- C2 (counterexample): a needed fetch (empty cache) whose body transfer
succeeds but whose origin supplies no `Last-Modified` header.  The claim
asserts that every such fetch ends with the temporary file tagged with
both provenance attributes and renamed over the target; instead the
source raises an uncaught `TypeError` at `os.fsencode(None)` after the
body download (the `setxattr` calls sit outside the `try`/`except`): the
temporary file is left behind carrying only the origin-URL tag, nothing
appears at the target path, and no path is returned. -/
theorem fetch_image_missing_header_crash :
    (fetch_image ⟨none, Except.ok "DATA"⟩ [] "cache/tmpX"
        "http://x/f34.qcow2" "cache" "f34").raised = true
    ∧ (fetch_image ⟨none, Except.ok "DATA"⟩ [] "cache/tmpX"
        "http://x/f34.qcow2" "cache" "f34").result = none
    ∧ fsLookup (fetch_image ⟨none, Except.ok "DATA"⟩ [] "cache/tmpX"
        "http://x/f34.qcow2" "cache" "f34").fs "cache/f34.qcow2" = none
    ∧ fsLookup (fetch_image ⟨none, Except.ok "DATA"⟩ [] "cache/tmpX"
        "http://x/f34.qcow2" "cache" "f34").fs "cache/tmpX" =
      some ⟨some "http://x/f34.qcow2", none, "DATA"⟩ := by
  decide

/-- C2 (amended): `fetch_image` reuses the cached file without re-fetching
iff the target file exists, its stored origin-URL tag equals `url`, and
its stored last-modified tag equals the origin's current `Last-Modified`
header (absent provenance metadata therefore counts as stale, not as an
error); when it is reused, the filesystem is untouched and the target path
is returned.  In every other case a body transfer is attempted, and when
it succeeds *and the origin supplied a `Last-Modified` header*, the file
at the target path afterwards carries the body and both provenance tags
(the fetch went to the temporary file, was tagged, and was renamed over
the target).  When the header is absent, a successful body download is
followed by an uncaught `TypeError` at `os.fsencode(None)`: no path is
returned, the rename never happens, and the target path is untouched. -/
theorem fetch_image_reuse_iff (net : NetState) (fs : FS)
    (tmpName url cache label path : String)
    (hpath : path =
      pathJoin cache (label ++ (splitext (basename (urlPath url))).2)) :
    ((fetch_image net fs tmpName url cache label).fetched = false ↔
      fsExists fs path = true ∧ origurl fs path = some url ∧
        image_source_last_modified_by_file_metadata fs path =
          net.lastModified)
    ∧ ((fetch_image net fs tmpName url cache label).fetched = false →
        (fetch_image net fs tmpName url cache label).result = some path
          ∧ (fetch_image net fs tmpName url cache label).fs = fs)
    ∧ (∀ data lm, net.body = .ok data → net.lastModified = some lm →
        (fetch_image net fs tmpName url cache label).fetched = true →
          (fetch_image net fs tmpName url cache label).result = some path
            ∧ fsLookup (fetch_image net fs tmpName url cache label).fs path =
                some ⟨some url, some lm, data⟩)
    ∧ (∀ data, net.body = .ok data → net.lastModified = none →
        (fetch_image net fs tmpName url cache label).fetched = true →
          (fetch_image net fs tmpName url cache label).raised = true
            ∧ (fetch_image net fs tmpName url cache label).result = none
            ∧ (tmpName ≠ path →
                fsLookup (fetch_image net fs tmpName url cache label).fs
                  path = fsLookup fs path)) := by
  subst hpath
  have hf : (fetch_image net fs tmpName url cache label).fetched =
      need_fetch net fs url
        (pathJoin cache (label ++ (splitext (basename (urlPath url))).2)) := by
    rcases hb : net.body with e | d <;>
      rcases hl : net.lastModified with _ | lm <;>
      by_cases hc : need_fetch net fs url
        (pathJoin cache (label ++ (splitext (basename (urlPath url))).2)) =
          true <;>
      simp [fetch_image, hb, hl, hc]
  refine ⟨?_, ?_, ?_, ?_⟩
  · rw [hf]
    exact need_fetch_eq_false net fs url _
  · intro h
    rw [hf] at h
    simp [fetch_image, h]
  · intro d lm hd hlm hfetched
    rw [hf] at hfetched
    simp [fetch_image, hfetched, hd, hlm, fsLookup, fsInsert]
  · intro d hd hlm hfetched
    rw [hf] at hfetched
    refine ⟨?_, ?_, ?_⟩
    · simp [fetch_image, hfetched, hd, hlm]
    · simp [fetch_image, hfetched, hd, hlm]
    · intro hne
      simp [fetch_image, hfetched, hd, hlm, fsLookup, fsInsert, hne]

/-- Witness for C2: a cache hit (matching URL tag and last-modified tag)
returns the cached path. -/
theorem fetch_image_reuse_iff_witness :
    (fetch_image ⟨some "Mon", Except.ok "DATA"⟩
        [("cache/f34.qcow2",
          ⟨some "http://x/f34.qcow2", some "Mon", "OLD"⟩)]
        "cache/tmpX" "http://x/f34.qcow2" "cache" "f34").result =
      some "cache/f34.qcow2" :=
  ((fetch_image_reuse_iff ⟨some "Mon", Except.ok "DATA"⟩
      [("cache/f34.qcow2", ⟨some "http://x/f34.qcow2", some "Mon", "OLD"⟩)]
      "cache/tmpX" "http://x/f34.qcow2" "cache" "f34" "cache/f34.qcow2"
      (by decide)).2.1 (by decide)).1

/-- C4: when a needed fetch's body download fails, `fetch_image` unlinks
the partial temporary file, reports failure (no path returned), and leaves
the filesystem exactly as before — in particular, any pre-existing target
file and its provenance tags are unchanged and nothing new appears at the
target path. -/
theorem fetch_image_failure_cleanup (net : NetState) (fs : FS)
    (tmpName url cache label path : String)
    (hpath : path =
      pathJoin cache (label ++ (splitext (basename (urlPath url))).2))
    (hstale : need_fetch net fs url path = true)
    (hbody : net.body = .error ())
    (htmp : fsLookup fs tmpName = none) :
    (fetch_image net fs tmpName url cache label).result = none
    ∧ (fetch_image net fs tmpName url cache label).fs = fs := by
  subst hpath
  have herase : fsErase (fsInsert fs tmpName ⟨none, none, ""⟩) tmpName
      = fs := by
    have h1 : fsErase fs tmpName = fs :=
      fsErase_eq_of_lookup_none fs tmpName htmp
    simp [fsErase, fsInsert] at h1 ⊢
    exact h1
  simp [fetch_image, hstale, hbody, herase]

/-- Witness for C4: a failed body download against a stale cache entry
(changed remote last-modified) returns no path and leaves the pre-existing
entry untouched. -/
theorem fetch_image_failure_cleanup_witness :
    (fetch_image ⟨some "Tue", Except.error ()⟩
        [("cache/f34.qcow2",
          ⟨some "http://x/f34.qcow2", some "Mon", "OLD"⟩)]
        "cache/tmpX" "http://x/f34.qcow2" "cache" "f34").result = none
    ∧ (fetch_image ⟨some "Tue", Except.error ()⟩
        [("cache/f34.qcow2",
          ⟨some "http://x/f34.qcow2", some "Mon", "OLD"⟩)]
        "cache/tmpX" "http://x/f34.qcow2" "cache" "f34").fs =
      [("cache/f34.qcow2",
        ⟨some "http://x/f34.qcow2", some "Mon", "OLD"⟩)] :=
  fetch_image_failure_cleanup ⟨some "Tue", Except.error ()⟩
    [("cache/f34.qcow2", ⟨some "http://x/f34.qcow2", some "Mon", "OLD"⟩)]
    "cache/tmpX" "http://x/f34.qcow2" "cache" "f34" "cache/f34.qcow2"
    (by decide) (by decide) rfl (by decide)

/-- C3: a snapshot is fresh — and `refresh_snapshot` performs no action at
all: no `qemu-img` creation, no runner invocation, no sync, no sleep — iff
the snapshot file exists, its creation time is at most 86400 seconds in
the past (the boundary `now - 86400` itself counts as fresh, anything
older is stale), and its creation time is not older than the backing image
file's; otherwise the snapshot is rebuilt, its effect trace starting with
the `qemu-img create`. -/
theorem refresh_snapshot_fresh_iff (fs : PathSet)
    (image_file snapfile lock : String) (t : SnapTimes)
    (rb : RunnerBehavior) :
    (need_refresh fs snapfile t = false ↔
      snapfile ∈ fs ∧ t.now - t.snapCtime ≤ 86400 ∧
        t.imageCtime ≤ t.snapCtime)
    ∧ (need_refresh fs snapfile t = false →
        refresh_snapshot fs image_file snapfile lock t rb =
          ([], (.ok (), fs)))
    ∧ (need_refresh fs snapfile t = true →
        (refresh_snapshot fs image_file snapfile lock t rb).1.head? =
          some .qemuImgCreate) := by
  refine ⟨?_, ?_, ?_⟩
  · by_cases hm : snapfile ∈ fs
    · by_cases hage : t.now - t.snapCtime > 86400
      · have hn : need_refresh fs snapfile t = true := by
          simp [need_refresh, hm, hage]
        rw [hn]
        exact iff_of_false (by decide)
          (fun h => absurd hage (not_lt.mpr h.2.1))
      · by_cases hback : t.snapCtime < t.imageCtime
        · have hn : need_refresh fs snapfile t = true := by
            simp [need_refresh, hm, hage, hback]
          rw [hn]
          exact iff_of_false (by decide)
            (fun h => absurd hback (not_lt.mpr h.2.2))
        · have hn : need_refresh fs snapfile t = false := by
            simp [need_refresh, hm, hage, hback]
          rw [hn]
          exact iff_of_true rfl ⟨hm, not_lt.mp hage, not_lt.mp hback⟩
    · have hn : need_refresh fs snapfile t = true := by
        simp [need_refresh, hm]
      rw [hn]
      exact iff_of_false (by decide) (fun h => hm h.1)
  · intro h
    unfold refresh_snapshot
    simp [h]
  · intro h
    unfold refresh_snapshot
    simp only [h, if_true]
    rcases hr : internal_run_ansible_playbooks (pinsert snapfile fs) lock
      true rb with ⟨res, fs2⟩
    cases res <;> simp [hr]

/-- Witness for C3: a snapshot created exactly one staleness window ago
(creation time `now - 86400`), no newer backing file — `refresh_snapshot`
is a no-op. -/
theorem refresh_snapshot_fresh_iff_witness :
    refresh_snapshot ["i.qcow2", "i.qcow2.snap"] "i.qcow2" "i.qcow2.snap"
        "lockfile" ⟨86400, 0, 0⟩ ⟨false, false⟩ =
      ([], (.ok (), ["i.qcow2", "i.qcow2.snap"])) :=
  (refresh_snapshot_fresh_iff ["i.qcow2", "i.qcow2.snap"] "i.qcow2"
    "i.qcow2.snap" "lockfile" ⟨86400, 0, 0⟩ ⟨false, false⟩).2.1
    (by norm_num [need_refresh])

/-- C9: when the external runner fails with wait-on-qemu requested, the
lock-indicator file used for exit detection is deleted (when it exists)
before the error is propagated, and on the snapshot-refresh path the
snapshot file created before the run is not rolled back. -/
theorem runner_failure_cleans_lock_keeps_snapshot (fs : PathSet)
    (lock : String) (rb : RunnerBehavior) (hfail : rb.fails = true) :
    ((internal_run_ansible_playbooks fs lock true rb).1 =
        .error .runnerFailed
      ∧ lock ∉ (internal_run_ansible_playbooks fs lock true rb).2)
    ∧ ∀ (image_file snapfile : String) (t : SnapTimes),
        need_refresh fs snapfile t = true → lock ≠ snapfile →
          (refresh_snapshot fs image_file snapfile lock t rb).2.1 =
              .error .runnerFailed
            ∧ lock ∉ (refresh_snapshot fs image_file snapfile lock t rb).2.2
            ∧ snapfile ∈
                (refresh_snapshot fs image_file snapfile lock t rb).2.2 := by
  refine ⟨⟨(internal_run_fail_parts fs lock rb hfail).1,
    (internal_run_fail_parts fs lock rb hfail).2.1⟩, ?_⟩
  intro image_file snapfile t hstale hne
  have hk := internal_run_fail_parts (pinsert snapfile fs) lock rb hfail
  unfold refresh_snapshot
  simp only [hstale, if_true]
  rcases hr : internal_run_ansible_playbooks (pinsert snapfile fs) lock
    true rb with ⟨res, fs2⟩
  rw [hr] at hk
  obtain ⟨h1, h2, h3⟩ := hk
  simp only at h1 h2 h3
  subst h1
  refine ⟨rfl, h2, ?_⟩
  exact h3 snapfile (mem_pinsert_self snapfile fs) (Ne.symm hne)

/-- Witness for C9: a failing runner with wait requested and the lock file
left behind — the error propagates and the lock file is gone. -/
theorem runner_failure_cleans_lock_keeps_snapshot_witness :
    (internal_run_ansible_playbooks ["artifact"] "lockfile" true
        ⟨true, true⟩).1 = .error .runnerFailed
    ∧ "lockfile" ∉ (internal_run_ansible_playbooks ["artifact"] "lockfile"
        true ⟨true, true⟩).2 :=
  (runner_failure_cleans_lock_keeps_snapshot ["artifact"] "lockfile"
    ⟨true, true⟩ rfl).1

/-- C7: when compose resolution leaves a candidate count other than one,
`get_url` yields no usable URL and `download_image` raises the fatal
"could not determine download URL" error without invoking `fetch_image`;
the same holds for a descriptor carrying none of the three resolution
methods. -/
theorem download_image_resolution_failure (image : Image) (cache : String)
    (cd : ComposeData) (links : List String) (net : NetState) (fs : FS)
    (tmpName : String)
    (hfile : image.file = none)
    (hsrc : truthy image.source = false) :
    (truthy image.compose = true →
      (composeurl2images (image.compose.getD "") cd "x86_64" image.variant
          none).length ≠ 1 →
      download_image image cache cd links net fs tmpName =
        (.error (.couldNotDetermineUrl image.name), false))
    ∧ (truthy image.compose = false → truthy image.centoshtml = false →
        download_image image cache cd links net fs tmpName =
          (.error (.couldNotDetermineUrl image.name), false)) := by
  constructor
  · intro hcomp hlen
    have hurl : get_url image cd links = .ok none := by
      unfold get_url
      rw [if_neg (by simp [hsrc]), if_pos (by simp [hcomp])]
      rcases hu : composeurl2images (image.compose.getD "") cd "x86_64"
          image.variant none with _ | ⟨u, _ | ⟨v, rest⟩⟩
      · simp [hu]
      · rw [hu] at hlen; simp at hlen
      · simp [hu]
    unfold download_image
    rw [if_neg (by simp [hfile]), hurl]
    simp [truthy]
  · intro hcomp hhtml
    have hurl : get_url image cd links = .ok none := by
      unfold get_url
      rw [if_neg (by simp [hsrc]), if_neg (by simp [hcomp]),
        if_neg (by simp [hhtml])]
    unfold download_image
    rw [if_neg (by simp [hfile]), hurl]
    simp [truthy]

/-- Witness for C7: an ambiguous compose (two candidates) and a
method-less descriptor both abort with no fetch attempted. -/
theorem download_image_resolution_failure_witness :
    download_image { name := "c9s", compose := some "http://c" } "cache"
        [("V", [("x86_64", [⟨"qcow2", "S1", "p1"⟩, ⟨"qcow2", "S2", "p2"⟩])])]
        [] ⟨none, Except.error ()⟩ [] "tmp" =
      (.error (.couldNotDetermineUrl "c9s"), false)
    ∧ download_image { name := "nothing" } "cache" [] []
        ⟨none, Except.error ()⟩ [] "tmp" =
      (.error (.couldNotDetermineUrl "nothing"), false) :=
  ⟨(download_image_resolution_failure
      { name := "c9s", compose := some "http://c" } "cache"
      [("V", [("x86_64", [⟨"qcow2", "S1", "p1"⟩, ⟨"qcow2", "S2", "p2"⟩])])]
      [] ⟨none, Except.error ()⟩ [] "tmp" rfl rfl).1 (by decide) (by decide),
   (download_image_resolution_failure { name := "nothing" } "cache" [] []
      ⟨none, Except.error ()⟩ [] "tmp" rfl rfl).2 rfl rfl⟩

/-- C8: a caller-specified inventory output path whose basename is neither
exactly `"inventory"` nor of extension `".yml"` makes `runqemu` raise a
configuration error before any side-effecting phase: no image download, no
conditioning-script write, no runner invocation — the effect trace is
empty. -/
theorem runqemu_bad_inventory_name (image : Image) (cache wi : String)
    (remove_cloud_init use_snapshot use_yum_cache : Bool)
    (cd : ComposeData) (links : List String) (net : NetState) (fs : FS)
    (yfs : YFS) (tmpName : String)
    (hw : wi ≠ "")
    (hb : basename wi ≠ "inventory")
    (he : (splitext (basename wi)).2 ≠ ".yml") :
    runqemu image cache (some wi) remove_cloud_init use_snapshot
        use_yum_cache cd links net fs yfs tmpName =
      ([], .error (.badInventoryName wi)) := by
  unfold runqemu
  simp only [Option.getD_some]
  rw [if_pos (by simp [truthy, hw]), if_pos ⟨hb, he⟩]

/-- Witness for C8: `--write-inventory /tmp/foo.txt` aborts with an empty
effect trace. -/
theorem runqemu_bad_inventory_name_witness :
    runqemu { name := "f34" } "cache" (some "/tmp/foo.txt") false false
        false [] [] ⟨none, Except.error ()⟩ [] [] "tmp" =
      ([], .error (.badInventoryName "/tmp/foo.txt")) :=
  runqemu_bad_inventory_name { name := "f34" } "cache" "/tmp/foo.txt"
    false false false [] [] ⟨none, Except.error ()⟩ [] [] "tmp"
    (by decide) (by decide) (by decide)

end Runqemu
